import Mathlib

/-!
Shallow embedding of the T2SQL criteria-to-report pipeline
(`preprocess.py`, `sql_generator.py`, `sql_processor.py`,
`snowflake_connector.py`) together with theorems settling the frozen
claims about its specification.

Strings are manipulated as `List Char`; every definition follows the
corresponding Python source line by line.
-/

namespace T2SQL

/-! ## Generic character/string utilities (Python `str` / `re` semantics) -/

/-- Python `\s` whitespace class (ASCII part, which is all the code relies on). -/
def isWs (c : Char) : Bool :=
  c = ' ' || c = '\t' || c = '\n' || c = '\r' || c = '\x0b' || c = '\x0c'

/-- Python `\w` word-character class (ASCII): letters, digits, underscore. -/
def isWordChar (c : Char) : Bool :=
  c.isAlphanum || c = '_'

/-- Python `str.strip()`: drop whitespace at both ends. -/
def trim (s : List Char) : List Char :=
  ((s.dropWhile isWs).reverse.dropWhile isWs).reverse

/-- Predicate `isPre p s` holds when `p` is a leading segment of `s`. -/
def isPre : List Char → List Char → Bool
  | [], _ => true
  | _ :: _, [] => false
  | p :: ps, c :: cs => p = c && isPre ps cs

/-- Python `needle in haystack` substring test. -/
def containsSub (haystack needle : List Char) : Bool :=
  match haystack with
  | [] => isPre needle []
  | _ :: rest => isPre needle haystack || containsSub rest needle

/-- Number of positions of `haystack` at which `needle` occurs. -/
def countSub (haystack needle : List Char) : Nat :=
  match haystack with
  | [] => if isPre needle [] then 1 else 0
  | _ :: rest => (if isPre needle haystack then 1 else 0) + countSub rest needle

/-- Join a list of strings with a separator, like Python `sep.join`. -/
def joinSep (sep : String) : List String → String
  | [] => ""
  | [x] => x
  | x :: y :: xs => x ++ sep ++ joinSep sep (y :: xs)

/-- Split on a single separator character, like Python `str.split(sep)`. -/
def splitChar (sep : Char) (s : List Char) : List (List Char) :=
  s.foldr
    (fun c acc =>
      match acc with
      | g :: gs => if c = sep then [] :: g :: gs else (c :: g) :: gs
      | [] => [[c]])
    [[]]

/-- Decimal digits to a natural number (Python `int` on a digit string). -/
def digitsToNat (l : List Char) : Nat :=
  l.foldl (fun n c => n * 10 + (c.toNat - 48)) 0

/-- Decimal rendering of a natural number (Python `str(n)`), fuel-driven. -/
def natToCharsAux : Nat → Nat → List Char → List Char
  | 0, _, acc => acc
  | fuel + 1, n, acc =>
    let d : Char := Char.ofNat (48 + n % 10)
    if n < 10 then d :: acc else natToCharsAux fuel (n / 10) (d :: acc)

/-- Python `str(n)` for a natural number. -/
def natToStr (n : Nat) : String :=
  String.mk (natToCharsAux (n + 1) n [])

/-! ## CriteriaParser (`preprocess.py`, `process_criteria`)

`re.split(r'\s*;\s*|\s+OR\s+|\s+AND\s+', input_str)` is modelled by a
left-to-right scan trying the three alternatives in order at each
position, exactly as the regex engine does; none of the alternatives can
match the empty string, and whitespace never contains `;`/`O`/`A`, so
greedy matching needs no backtracking. -/

/-- The outer delimiter characters `[:=<>]` of `process_criteria`. -/
def isDelim (c : Char) : Bool :=
  c = ':' || c = '=' || c = '<' || c = '>'

/-- Try to match `\s*;\s*|\s+OR\s+|\s+AND\s+` at the head of `s`;
on success return the remainder after the matched delimiter. -/
def segBreak (s : List Char) : Option (List Char) :=
  let r := s.dropWhile isWs
  match r with
  | ';' :: rest => some (rest.dropWhile isWs)
  | _ =>
    match s with
    | [] => none
    | c :: _ =>
      if isWs c then
        match r with
        | 'O' :: 'R' :: rest =>
          match rest with
          | d :: _ => if isWs d then some (rest.dropWhile isWs) else none
          | [] => none
        | 'A' :: 'N' :: 'D' :: rest =>
          match rest with
          | d :: _ => if isWs d then some (rest.dropWhile isWs) else none
          | [] => none
        | _ => none
      else none

/-- Try to match `\s*,\s*` at the head of `s` (the value-list splitter);
on success return the remainder after the matched delimiter. -/
def commaBreak (s : List Char) : Option (List Char) :=
  match s.dropWhile isWs with
  | ',' :: rest => some (rest.dropWhile isWs)
  | _ => none

/-- Driver for `re.split`: scan left to right, emitting the text between
delimiter matches.  Every delimiter match consumes at least one
character, so fuel `s.length + 1` is never exhausted. -/
def splitByAux (m : List Char → Option (List Char)) :
    Nat → List Char → List Char → List (List Char)
  | 0, cur, _ => [cur.reverse]
  | _ + 1, cur, [] => [cur.reverse]
  | fuel + 1, cur, c :: rest =>
    match m (c :: rest) with
    | some r => cur.reverse :: splitByAux m fuel [] r
    | none => splitByAux m fuel (c :: cur) rest

/-- Model of `re.split(r'\s*;\s*|\s+OR\s+|\s+AND\s+', s)`. -/
def splitSegs (s : List Char) : List (List Char) :=
  splitByAux segBreak (s.length + 1) [] s

/-- Model of `re.split(r'\s*,\s*', s)`. -/
def splitVals (s : List Char) : List (List Char) :=
  splitByAux commaBreak (s.length + 1) [] s

/-- Model of `re.split(r"[:=<>]", segment, 1)`: split once at the first outer
delimiter; `none` when the segment has no delimiter (the Python list
then has length 1 and the segment is skipped). -/
def splitOnce : List Char → Option (List Char × List Char)
  | [] => none
  | c :: rest =>
    if isDelim c then some ([], rest)
    else (splitOnce rest).map (fun p => (c :: p.1, p.2))

/-- The key/value pair a segment contributes, if any: strip the segment,
skip it when empty or delimiter-free, otherwise strip the key and build
the comma-split, stripped, non-empty value list. -/
def pairOfSeg (seg : List Char) : Option (String × List String) :=
  let t := trim seg
  if t.isEmpty then none
  else
    match splitOnce t with
    | none => none
    | some (k, tail) =>
      let vals := (splitVals (trim tail)).filterMap
        (fun v => let w := trim v; if w.isEmpty then none else some (String.mk w))
      some (String.mk (trim k), vals)

/-- Python dict assignment `d[k] = v`: replace in place if the key is
present (keeping its position), otherwise append. -/
def upsert (d : List (String × List String)) (k : String) (v : List String) :
    List (String × List String) :=
  match d with
  | [] => [(k, v)]
  | (k', v') :: rest => if k' = k then (k, v) :: rest else (k', v') :: upsert rest k v

/-- One loop iteration of `process_criteria` over a segment. -/
def procSeg (acc : List (String × List String)) (seg : List Char) :
    List (String × List String) :=
  match pairOfSeg seg with
  | none => acc
  | some (k, v) => upsert acc k v

/-- Function `process_criteria` of `preprocess.py`: the result dict as an ordered
association list. -/
def process_criteria (input : String) : List (String × List String) :=
  (splitSegs input.data).foldl procSeg []

/-- Ordered dict lookup. -/
def getVal (d : List (String × List String)) (k : String) : Option (List String) :=
  match d with
  | [] => none
  | (k', v) :: rest => if k' = k then some v else getVal rest k

/-- The keys of the result dict, in order. -/
def keysOf (d : List (String × List String)) : List String :=
  d.map Prod.fst

/-- The key/value pairs produced by the segments of `input`, in segment
order, before dict insertion. -/
def segPairs (input : String) : List (String × List String) :=
  (splitSegs input.data).filterMap pairOfSeg

/-- The value of the last assignment to `k` among `pairs` (the value a
Python dict holds after inserting them in order). -/
def lastAssign (pairs : List (String × List String)) (k : String) :
    Option (List String) :=
  pairs.foldl (fun acc p => if p.1 = k then some p.2 else acc) none

/-! ## QuerySanitizer (`sql_generator.py`, `SQLGenerator._modify_query`)

The clause locator `re.compile(r"\bFROM\s+CLM_WGS_GNCCLMP_CMPCT\s+CLM\b",
re.IGNORECASE)` is modelled by a scanner that, at every position preceded
by a non-word character, matches `FROM`, one-plus whitespace, the table
name, one-plus whitespace, `CLM`, and a trailing word boundary, all case
-insensitively.  Whitespace never contains the letters of the keywords,
so the greedy `\s+` needs no backtracking. -/

/-- Case-insensitive literal match of `pat` at the head of `s`; on
success return the remainder of `s`. -/
def matchCI : List Char → List Char → Option (List Char)
  | [], s => some s
  | _ :: _, [] => none
  | p :: ps, c :: cs => if p.toUpper = c.toUpper then matchCI ps cs else none

/-- Match `\s+` (at least one whitespace) at the head of `s`. -/
def wsPlus : List Char → Option (List Char)
  | [] => none
  | c :: cs => if isWs c then some (cs.dropWhile isWs) else none

/-- Match the primary-table clause pattern at the head of `s`; on
success return the remainder after the match. -/
def fromMatchRest (s : List Char) : Option (List Char) := do
  let r1 ← matchCI "FROM".data s
  let r2 ← wsPlus r1
  let r3 ← matchCI "CLM_WGS_GNCCLMP_CMPCT".data r2
  let r4 ← wsPlus r3
  let r5 ← matchCI "CLM".data r4
  match r5 with
  | [] => some r5
  | c :: _ => if isWordChar c then none else some r5

/-- Model of `from_pattern.search`: first match position, as `(start, end)`
indices, honouring the leading word boundary via `prevWord`. -/
def fromSearchAux : Bool → Nat → List Char → Option (Nat × Nat)
  | _, _, [] => none
  | prevWord, pos, c :: rest =>
    if prevWord then fromSearchAux (isWordChar c) (pos + 1) rest
    else
      match fromMatchRest (c :: rest) with
      | some r => some (pos, pos + ((c :: rest).length - r.length))
      | none => fromSearchAux (isWordChar c) (pos + 1) rest

/-- First match of the primary-table clause pattern in `s`. -/
def fromSearch (s : List Char) : Option (Nat × Nat) :=
  fromSearchAux false 0 s

/-- Number of positions of `s` at which the primary-table clause pattern
matches (used to state "the pattern occurs exactly once"). -/
def fromCountAux : Bool → List Char → Nat
  | _, [] => 0
  | prevWord, c :: rest =>
    (if !prevWord && (fromMatchRest (c :: rest)).isSome then 1 else 0) +
      fromCountAux (isWordChar c) rest

/-- Number of primary-table clause pattern matches in `s`. -/
def fromCount (s : List Char) : Nat :=
  fromCountAux false s

/-- The `table_alias_mapping` of `_modify_query`. -/
def table_alias_mapping : List (String × String) :=
  [("CLM_WGS_GNCCLMP_CMPCT", "CLM"),
   ("CLM_WGS_GNCDTLP_CMPCT", "DTL"),
   ("CLM_WGS_GNCNATP_E00_CMPCT", "E00"),
   ("CLM_WGS_GNCNATP_EA1_CMPCT", "EA1"),
   ("CLM_WGS_GNCNATP_EA2_CMPCT", "EA2"),
   ("CLM_WGS_GNCNATP_EA3_CMPCT", "EA3"),
   ("CLM_WGS_GNCEOBP_CMPCT", "EOB")]

/-- Model of `table_alias_mapping.get(table_name)` (Python renders a missing
alias as the string `None` inside the f-string). -/
def lookupAlias (t : String) : String :=
  match table_alias_mapping.find? (fun p => p.1 = t) with
  | some p => p.2
  | none => "None"

/-- The combined aliased column list built from the configuration
(`select_columns` per table); a column containing `DDC_CD_HCID` is left
unqualified. -/
def aliasedColumns (config : List (String × List String)) : List String :=
  config.foldl
    (fun acc p =>
      acc ++ p.2.map (fun col =>
        if containsSub col.data "DDC_CD_HCID".data then col
        else lookupAlias p.1 ++ "." ++ col))
    []

/-- The injected de-duplication subquery, exactly as `subquery.strip()`
leaves it in `_modify_query`. -/
def dedup_subquery : String :=
  "INNER JOIN ( \n                    SELECT GNCHIIOS_HCLM_DCN, MIN(GNCHIIOS_HCLM_SEQ_NBR) AS min_seq\n                    FROM CLM_WGS_GNCCLMP_CMPCT \n                    GROUP BY GNCHIIOS_HCLM_DCN\n                    ) AS ms ON CLM.GNCHIIOS_HCLM_DCN = ms.GNCHIIOS_HCLM_DCN AND CLM.GNCHIIOS_HCLM_SEQ_NBR = ms.min_seq"

/-- Model of `SQLGenerator._modify_query`: replace everything before the
primary-table clause with a freshly built projection, then inject the
de-duplication join right after that clause; if the clause cannot be
located, return the query unchanged. -/
def modify_query (config : List (String × List String)) (query : String) : String :=
  let columns := joinSep ",\n" (aliasedColumns config)
  match fromSearch query.data with
  | none => query
  | some se =>
    let tail := trim (query.data.drop se.1)
    let newQ := ("SELECT\n" ++ columns ++ "\n").data ++ tail
    match fromSearch newQ with
    | none => String.mk newQ
    | some se2 =>
      String.mk (newQ.take se2.2 ++ "\n".data ++ dedup_subquery.data ++
        "\n".data ++ newQ.drop se2.2)

/-- A one-table projection configuration (representative of
`config.json`, which is external to the repository). -/
def sample_config : List (String × List String) :=
  [("CLM_WGS_GNCCLMP_CMPCT", ["GNCHIIOS_HCLM_DCN", "GNCHIIOS_HCLM_SEQ_NBR"])]

/-- A generated query containing the primary-table clause exactly once. -/
def sample_query : String :=
  "SELECT * FROM CLM_WGS_GNCCLMP_CMPCT CLM WHERE CLM.X = 1"

/-- Number of copies of the injected min-sequence de-duplication join in
a query, counted by its `MIN(GNCHIIOS_HCLM_SEQ_NBR)` aggregation, which
occurs exactly once per injected join. -/
def dedupJoinCount (q : String) : Nat :=
  countSub q.data "MIN(GNCHIIOS_HCLM_SEQ_NBR)".data

/-! ## SQLProcessor (`sql_processor.py`) -/

/-- The `restricted_operations` list of `SQLProcessor.__init__`. -/
def restricted_operations : List String :=
  ["INSERT", "UPDATE", "DELETE", "DROP", "ALTER", "CREATE", "REPLACE",
   "TRUNCATE", "RENAME"]

/-- State of the word tokenizer: inside a string literal or not, the
current word run (reversed), and the tokens emitted so far. -/
structure TokSt where
  inLit : Bool
  cur : List Char
  toks : List String

/-- Emit the pending word run, if any. -/
def flushTok (st : TokSt) : TokSt :=
  if st.cur.isEmpty then st
  else { st with cur := [], toks := st.toks ++ [String.mk st.cur.reverse] }

/-- One tokenizer step: single-quoted string literals are skipped whole,
maximal runs of word characters form one token, everything else is a
separator. -/
def tokStep (st : TokSt) (c : Char) : TokSt :=
  if st.inLit then
    if c = '\'' then { st with inLit := false } else st
  else if c = '\'' then { flushTok st with inLit := true }
  else if isWordChar c then { st with cur := c :: st.cur }
  else flushTok st

/-- Modelled from the spec: sqlparse's `statement.flatten()` keyword
tokens.  The spec reads "scan for any token matching a fixed
restricted-operation set appearing as a keyword (not inside a string
literal or identifier)"; the word tokens of the SQL text are the
candidate keyword tokens, and an identifier such as `DROP_RATE` is a
single token distinct from the keyword `DROP`. -/
def wordTokens (s : String) : List String :=
  (flushTok (s.data.foldl tokStep ⟨false, [], []⟩)).toks

/-- Python `str.upper()` (ASCII). -/
def upperStr (s : String) : String :=
  String.mk (s.data.map Char.toUpper)

/-- Model of `SQLProcessor.contains_restricted_operations`: true when some
keyword token of the query upper-cases to a restricted operation. -/
def contains_restricted_operations (query : String) : Bool :=
  (wordTokens query).any (fun t => restricted_operations.contains (upperStr t))

/-- The prohibition comment of `process_query`. -/
def restricted_message : String :=
  "Restricted operations are prohibited. Please ask criteria to pull the data from the database."

/-- The invalid-syntax comment of `process_query`. -/
def invalid_sql_message : String :=
  "Invalid SQL syntax. Please provide your criteria again."

/-- Outcome of `process_query`: the `(status, comments)` pair plus a
flag recording whether the query was executed against the warehouse. -/
structure ProcResult where
  status : String
  comments : String
  executed : Bool
deriving DecidableEq

/-- Model of `SQLProcessor.process_query`.  `valid` models the result of
`is_valid_syntax` (the truthiness of the sqlparse parse, external to the
repository) and `runOutcome` the `(status, comments)` pair produced by
the execute/filter/upload path; both branches of the claims hold for
every value of these parameters.  The `SELECT` test is Python's
case-sensitive `'SELECT' in query`. -/
def process_query (valid : Bool) (runOutcome : String × String)
    (query : String) : ProcResult :=
  if contains_restricted_operations query then
    ⟨"FAILED", restricted_message, false⟩
  else if valid && containsSub query.data "SELECT".data then
    ⟨runOutcome.1, runOutcome.2, true⟩
  else
    ⟨"FAILED", invalid_sql_message, false⟩

/-- The fetch cap of `SnowflakeConnector.run_sql` (`fetchmany(200_000)`). -/
def ROW_CAP : Nat := 200000

/-- Modelled from the spec: the cursor fetch of `run_sql` returns at
most the cap — "On SUCCESS, it fetches at most a fixed cap (200,000)
rows"; `available` is the full warehouse result set. -/
def run_sql_fetch (available : List (List String)) : List (List String) :=
  available.take ROW_CAP

/-- The flag computation of `process_query`:
`True if df.shape[0] == 200_000 else False`. -/
def large_data_flag (rowCount : Nat) : Bool :=
  rowCount == ROW_CAP

/-! Provider-status derivation of `process_dataframe` (the np.select
call with its two conditions, choices `PAR`/`NON-PAR`, default
`NON-PAR`). -/

/-- Allow-list for `DDC_CD_PRVDR_IND` on home claims (PAR condition). -/
def home_prvdr_allow : List String :=
  ["A", "B", "C", "H", "I", "K", "M", "Y", "G", "O", "P", "Z", "S", "V",
   "E", "F", "R", "T", "U", "W"]

/-- Allow-list for `DDC_CD_PAR_KEYED_IND` on non-home claims (PAR). -/
def par_keyed_allow : List String := ["P", "Y"]

/-- Allow-list for `DDC_CD_MX_PAR_IND` on non-home claims (PAR). -/
def mx_par_allow : List String := ["Y", "E", "X", "T", "F", "U", "2", "1"]

/-- Provider-indicator list of the NON-PAR condition on home claims. -/
def nonpar_prvdr_list : List String := ["N", "D", "L"]

/-- Par-keyed list of the NON-PAR condition on non-home claims. -/
def nonpar_keyed_list : List String := ["N"]

/-- Mx-par list of the NON-PAR condition (un-guarded top-level disjunct). -/
def nonpar_mx_list : List String := ["N", "D"]

/-- First np.select condition (PAR). -/
def par_condition (home prvdr keyed mx : String) : Bool :=
  (home == "Y" && home_prvdr_allow.contains prvdr) ||
    (home != "Y" && (par_keyed_allow.contains keyed || mx_par_allow.contains mx))

/-- Second np.select condition (NON-PAR). -/
def nonpar_condition (home prvdr keyed mx : String) : Bool :=
  (home == "Y" && nonpar_prvdr_list.contains prvdr) ||
    (home != "Y" && nonpar_keyed_list.contains keyed) ||
    nonpar_mx_list.contains mx

/-- Derived `PRVDR_STATUS` via np.select: first matching condition wins,
default `NON-PAR`. -/
def prvdr_status (home prvdr keyed mx : String) : String :=
  if par_condition home prvdr keyed mx then "PAR"
  else if nonpar_condition home prvdr keyed mx then "NON-PAR"
  else "NON-PAR"

/-! Limit-code filter of `filter_limit_columns_by_values`.  A row is the
list of its (column, value) cells. -/

/-- Cell access `df.loc[row, col]` (cells are strings). -/
def getCol (r : List (String × String)) (c : String) : String :=
  match r.find? (fun p => p.1 = c) with
  | some p => p.2
  | none => ""

/-- Pointer value of a limit-class column: the column must start with
`DDC_CD_LMT_CLS_CDE`, split on `_` into more than one part, and its
second-to-last part must be all digits. -/
def limitColPointer (col : String) : Option Nat :=
  if isPre "DDC_CD_LMT_CLS_CDE".data col.data then
    let parts := splitChar '_' col.data
    if parts.length > 1 then
      match parts.reverse with
      | _ :: p2 :: _ =>
        if !p2.isEmpty && p2.all Char.isDigit then some (digitsToNat p2)
        else none
      | _ => none
    else none
  else none

/-- Insertion-ordered grouping `limit_columns[pointer_value].append(col)`. -/
def addGroup (gs : List (Nat × List String)) (pv : Nat) (col : String) :
    List (Nat × List String) :=
  match gs with
  | [] => [(pv, [col])]
  | (p, cs) :: rest =>
    if p = pv then (p, cs ++ [col]) :: rest else (p, cs) :: addGroup rest pv col

/-- The `limit_columns` dictionary keyed by pointer value. -/
def limitGroups (columns : List String) : List (Nat × List String) :=
  columns.foldl
    (fun gs col =>
      match limitColPointer col with
      | some pv => addGroup gs pv col
      | none => gs)
    []

/-- Per-row `concatenated_limit_clses`: starts as the empty string; for
each pointer group whose value matches the row's `DDC_DTL_ICDA_PNTR_1`,
the group's columns are comma-joined. -/
def concatLimits (groups : List (Nat × List String))
    (r : List (String × String)) : String :=
  groups.foldl
    (fun acc g =>
      if getCol r "DDC_DTL_ICDA_PNTR_1" = natToStr g.1 then
        joinSep "," (g.2.map (getCol r))
      else acc)
    ""

/-- Model of `SQLProcessor.filter_limit_columns_by_values`: keep rows whose
concatenated limit classes contain some target value as a substring
(the regex alternation of escaped values; an empty value list gives the
empty pattern, which matches every row). -/
def filter_limit_columns_by_values (columns : List String)
    (rows : List (List (String × String))) (values : List String) :
    List (List (String × String)) :=
  let groups := limitGroups columns
  rows.filter (fun r =>
    values.isEmpty ||
      values.any (fun v => containsSub (concatLimits groups r).data v.data))

/-- Column list of the C7 example frame: the pointer column and one
limit-class group with pointer value 1. -/
def sample_limit_columns : List String :=
  ["DDC_DTL_ICDA_PNTR_1", "DDC_CD_LMT_CLS_CDE_1_1",
   "DDC_CD_LMT_CLS_CDE_1_2", "DDC_CD_LMT_CLS_CDE_1_3"]

/-- The C7 example row: pointer matches group 1 and the group holds the
values `AR56`, `` (empty), `FD1`. -/
def sample_limit_row : List (String × String) :=
  [("DDC_DTL_ICDA_PNTR_1", "1"), ("DDC_CD_LMT_CLS_CDE_1_1", "AR56"),
   ("DDC_CD_LMT_CLS_CDE_1_2", ""), ("DDC_CD_LMT_CLS_CDE_1_3", "FD1")]

end T2SQL

namespace T2SQL

/-! ## Helper lemmas about the criteria parser -/

theorem mem_trim {c : Char} {s : List Char} (h : c ∈ trim s) : c ∈ s := by
  unfold trim at h
  rw [List.mem_reverse] at h
  have h1 := (List.dropWhile_sublist (l := (s.dropWhile isWs).reverse) (p := isWs)).subset h
  rw [List.mem_reverse] at h1
  exact (List.dropWhile_sublist (l := s) (p := isWs)).subset h1

theorem splitOnce_eq_none {s : List Char} (h : ∀ c ∈ s, isDelim c = false) :
    splitOnce s = none := by
  induction s with
  | nil => rfl
  | cons c rest ih =>
    have hc := h c (List.mem_cons_self c rest)
    have hrest : ∀ x ∈ rest, isDelim x = false :=
      fun x hx => h x (List.mem_cons_of_mem c hx)
    simp [splitOnce, hc, ih hrest]

theorem procSeg_no_delim {acc : List (String × List String)} {seg : List Char}
    (h : seg.any isDelim = false) : procSeg acc seg = acc := by
  have hall : ∀ c ∈ seg, isDelim c = false := by
    intro c hc
    cases hd : isDelim c with
    | false => rfl
    | true =>
      exfalso
      have htrue : seg.any isDelim = true := List.any_eq_true.mpr ⟨c, hc, hd⟩
      simp [htrue] at h
  have htrim : ∀ c ∈ trim seg, isDelim c = false := fun c hc => hall c (mem_trim hc)
  unfold procSeg pairOfSeg
  by_cases he : (trim seg).isEmpty
  · simp [he]
  · simp [he, splitOnce_eq_none htrim]

theorem foldl_procSeg_filter (segs : List (List Char))
    (acc : List (String × List String)) :
    segs.foldl procSeg acc =
      (segs.filter (fun seg => seg.any isDelim)).foldl procSeg acc := by
  induction segs generalizing acc with
  | nil => rfl
  | cons seg rest ih =>
    cases h : seg.any isDelim with
    | true => simp [List.filter_cons, h, List.foldl_cons, ih]
    | false => simp [List.filter_cons, h, List.foldl_cons, ih, procSeg_no_delim h]

theorem getVal_upsert (d : List (String × List String)) (k k' : String)
    (v : List String) :
    getVal (upsert d k v) k' = if k = k' then some v else getVal d k' := by
  induction d with
  | nil =>
    by_cases h : k = k' <;> simp [upsert, getVal, h]
  | cons p rest ih =>
    obtain ⟨k0, v0⟩ := p
    by_cases h0 : k0 = k
    · subst h0
      by_cases h : k0 = k' <;> simp [upsert, getVal, h]
    · simp only [upsert, if_neg h0]
      by_cases h1 : k0 = k'
      · subst h1
        have hk : ¬k = k0 := fun e => h0 e.symm
        simp [getVal, ih, hk]
      · simp [getVal, ih, h1]

theorem procSeg_eq_pair (acc : List (String × List String)) (seg : List Char) :
    procSeg acc seg =
      match pairOfSeg seg with
      | none => acc
      | some (k, v) => upsert acc k v := rfl

theorem getVal_foldl_pairs (pairs : List (String × List String))
    (d : List (String × List String)) (k : String) :
    getVal (pairs.foldl (fun d p => upsert d p.1 p.2) d) k =
      pairs.foldl (fun acc p => if p.1 = k then some p.2 else acc) (getVal d k) := by
  induction pairs generalizing d with
  | nil => rfl
  | cons p rest ih =>
    obtain ⟨k0, v0⟩ := p
    rw [List.foldl_cons, List.foldl_cons, ih]
    by_cases h : k0 = k <;> simp [h, getVal_upsert]

theorem foldl_procSeg_eq_foldl_upsert (segs : List (List Char))
    (d : List (String × List String)) :
    segs.foldl procSeg d =
      (segs.filterMap pairOfSeg).foldl (fun d p => upsert d p.1 p.2) d := by
  induction segs generalizing d with
  | nil => rfl
  | cons seg rest ih =>
    rw [List.foldl_cons, List.filterMap_cons]
    cases h : pairOfSeg seg with
    | none => rw [ih, procSeg_eq_pair, h]
    | some p =>
      obtain ⟨k, v⟩ := p
      rw [List.foldl_cons, ih, procSeg_eq_pair, h]

theorem keys_upsert (d : List (String × List String)) (k : String)
    (v : List String) :
    keysOf (upsert d k v) =
      if k ∈ keysOf d then keysOf d else keysOf d ++ [k] := by
  induction d with
  | nil => simp [upsert, keysOf]
  | cons p rest ih =>
    obtain ⟨k0, v0⟩ := p
    by_cases h0 : k0 = k
    · subst h0
      simp [upsert, keysOf]
    · have hk : ¬k = k0 := fun e => h0 e.symm
      simp only [upsert, if_neg h0, keysOf, List.map_cons] at ih ⊢
      rw [ih]
      by_cases hm : k ∈ rest.map Prod.fst
      · simp [hm, hk]
      · simp [hm, hk]

theorem nodup_keys_upsert {d : List (String × List String)} {k : String}
    {v : List String} (h : (keysOf d).Nodup) : (keysOf (upsert d k v)).Nodup := by
  rw [keys_upsert]
  by_cases hm : k ∈ keysOf d
  · simp [hm, h]
  · simp [hm, List.nodup_append, h]

theorem nodup_keys_foldl (pairs : List (String × List String))
    (d : List (String × List String)) (h : (keysOf d).Nodup) :
    (keysOf (pairs.foldl (fun d p => upsert d p.1 p.2) d)).Nodup := by
  induction pairs generalizing d with
  | nil => exact h
  | cons p rest ih =>
    rw [List.foldl_cons]
    exact ih _ (nodup_keys_upsert h)

end T2SQL

namespace T2SQL

/-! ## Claim theorems about the criteria parser -/

/-- C6: `process_criteria "A:1, 2 ; B=3"` yields the ordered mapping
`A ↦ ["1","2"], B ↦ ["3"]`: segments split on `;` (with surrounding
whitespace absorbed), each segment split once on the first of
`: = < >`, values split on commas with whitespace trimmed and empties
discarded. -/
theorem C6_parse_example :
    process_criteria "A:1, 2 ; B=3" = [("A", ["1", "2"]), ("B", ["3"])] := by
  decide

/-- C9: the criteria parser is a total function of its string input
(the model returns a plain value, never an error), and segments that
contain none of the delimiter characters `: = < >` contribute no key:
dropping every delimiter-free segment leaves the parse result
unchanged. -/
theorem C9_delimiterless_segments_dropped (input : String) :
    process_criteria input =
      ((splitSegs input.data).filter (fun seg => seg.any isDelim)).foldl procSeg [] := by
  unfold process_criteria
  exact foldl_procSeg_filter _ _

/-- C4 counterexample: in `"A:1;A:2"` the key `A` appears in two
segments; the parsed result maps `A` to `["2"]`, the value list of the
*last* occurrence, not `["1"]` from the first occurrence as the claim
states. -/
theorem C4_counterexample :
    getVal (process_criteria "A:1;A:2") "A" = some ["2"] ∧
      getVal (process_criteria "A:1;A:2") "A" ≠ some ["1"] := by
  decide

/-- C4 (amended): when the same key appears in several segments, the
parsed result maps it to the value list of its **last** occurrence
(later assignments overwrite earlier ones, keys keep first-occurrence
order), and keys are unique in the result. -/
theorem C4_last_occurrence_wins (input : String) (k : String) :
    getVal (process_criteria input) k = lastAssign (segPairs input) k ∧
      (keysOf (process_criteria input)).Nodup := by
  constructor
  · unfold process_criteria lastAssign segPairs
    rw [foldl_procSeg_eq_foldl_upsert, getVal_foldl_pairs]
    rfl
  · unfold process_criteria
    rw [foldl_procSeg_eq_foldl_upsert]
    exact nodup_keys_foldl _ [] (by simp [keysOf])

/-! ## Claim theorems about the query sanitizer -/

/-- C8: whenever the primary-table clause (`FROM CLM_WGS_GNCCLMP_CMPCT`
with alias `CLM`) cannot be located, `modify_query` returns the input
text unchanged — no projection rewrite, no join injection, no error. -/
theorem C8_no_clause_no_rewrite (config : List (String × List String))
    (query : String) (h : fromSearch query.data = none) :
    modify_query config query = query := by
  unfold modify_query
  rw [h]

/-- C8 witness: a query without the primary-table clause is returned
verbatim. -/
theorem C8_no_clause_no_rewrite_witness :
    modify_query sample_config "SELECT 1 FROM OTHER_TABLE T" =
      "SELECT 1 FROM OTHER_TABLE T" :=
  C8_no_clause_no_rewrite sample_config "SELECT 1 FROM OTHER_TABLE T" (by decide)

/-- C3 counterexample: `sample_query` contains the primary-table clause
pattern exactly once, yet applying `modify_query` to the output of
`modify_query` yields a query with two copies of the min-sequence
de-duplication join, not one: the second run keeps the join injected by
the first and injects another. -/
theorem C3_counterexample :
    fromCount sample_query.data = 1 ∧
      dedupJoinCount (modify_query sample_config
        (modify_query sample_config sample_query)) ≠ 1 ∧
      dedupJoinCount (modify_query sample_config
        (modify_query sample_config sample_query)) = 2 := by
  set_option maxRecDepth 100000 in decide

/-- C3 (amended): sanitize is **not** idempotent with respect to the
de-duplication join: a single application to a query containing the
primary-table clause pattern exactly once injects exactly one
min-sequence de-duplication join, and a second application injects a
second copy (two joins in total). -/
theorem C3_second_run_duplicates_join :
    fromCount sample_query.data = 1 ∧
      dedupJoinCount (modify_query sample_config sample_query) = 1 ∧
      dedupJoinCount (modify_query sample_config
        (modify_query sample_config sample_query)) = 2 := by
  set_option maxRecDepth 100000 in decide

/-! ## Claim theorems about the SQL processor and executor -/

/-- C1: the restricted-operation check classifies by keyword tokens
only — true for `SELECT * FROM t; DROP TABLE t`, false for
`SELECT DROP_RATE FROM t` (identifier, not keyword) — and whenever it
returns true, `process_query` returns the FAILED status with the
prohibition message and never executes the query, for every syntax
validity and every execution outcome. -/
theorem C1_restricted_op_gate :
    contains_restricted_operations "SELECT * FROM t; DROP TABLE t" = true ∧
      contains_restricted_operations "SELECT DROP_RATE FROM t" = false ∧
      ∀ (valid : Bool) (runOutcome : String × String) (q : String),
        contains_restricted_operations q = true →
        process_query valid runOutcome q = ⟨"FAILED", restricted_message, false⟩ := by
  refine ⟨by decide, by decide, ?_⟩
  intro valid runOutcome q h
  simp [process_query, h]

/-- C1 witness: the restricted query of the claim is rejected without
execution. -/
theorem C1_restricted_op_gate_witness :
    process_query true ("SUCCESS", "ok") "SELECT * FROM t; DROP TABLE t" =
      ⟨"FAILED", restricted_message, false⟩ :=
  C1_restricted_op_gate.2.2 true ("SUCCESS", "ok")
    "SELECT * FROM t; DROP TABLE t" (by decide)

/-- C2 counterexample: a row with `ITS_HOME_IND='N'`,
`PAR_KEYED_IND='N'`, `MX_PAR_IND='X'` gets `PRVDR_STATUS = "PAR"`, not
the claimed default `"NON-PAR"`: `'X'` **is** in the non-home mx-par
allow-list `['Y','E','X','T','F','U','2','1']`, so the PAR condition
matches. -/
theorem C2_counterexample :
    prvdr_status "N" "A" "N" "X" = "PAR" ∧
      prvdr_status "N" "A" "N" "X" ≠ "NON-PAR" := by
  decide

/-- C2 (amended): for any row with `ITS_HOME_IND='Y'` and
`PRVDR_IND='A'` the derived `PRVDR_STATUS` is `"PAR"`; and for any row
with `ITS_HOME_IND='N'`, `PAR_KEYED_IND='N'`, `MX_PAR_IND='X'` the PAR
condition also matches (`'X'` is in the non-home mx-par allow-list), so
`PRVDR_STATUS` is `"PAR"`, not the default `"NON-PAR"`. -/
theorem C2_provider_status :
    (∀ keyed mx : String, prvdr_status "Y" "A" keyed mx = "PAR") ∧
      (∀ prvdr : String, prvdr_status "N" prvdr "N" "X" = "PAR") := by
  constructor
  · intro keyed mx
    rfl
  · intro prvdr
    rfl

/-- C5: query execution fetches at most 200,000 rows, and the
truncated/large-data flag is true exactly when the fetched row count
equals 200,000 (hence false for every smaller count). -/
theorem C5_row_cap_and_flag :
    (∀ available : List (List String),
        (run_sql_fetch available).length ≤ ROW_CAP) ∧
      (∀ n : Nat, large_data_flag n = true ↔ n = ROW_CAP) := by
  constructor
  · intro available
    simp [run_sql_fetch]
  · intro n
    simp [large_data_flag]

/-- C7: for a row whose limit-class column group (selected by the
matching pointer value) holds `"AR56"`, `""`, `"FD1"`, filtering for
`["FD1"]` retains the row and filtering for `["ZZ9"]` excludes it;
membership is substring containment in the comma-concatenation
`"AR56,,FD1"` of the group's columns. -/
theorem C7_limit_code_filter :
    filter_limit_columns_by_values sample_limit_columns [sample_limit_row]
        ["FD1"] = [sample_limit_row] ∧
      filter_limit_columns_by_values sample_limit_columns [sample_limit_row]
        ["ZZ9"] = [] ∧
      concatLimits (limitGroups sample_limit_columns) sample_limit_row =
        "AR56,,FD1" := by
  set_option maxRecDepth 100000 in decide

/-- C10: for every query text with no restricted-operation keyword and
no case-sensitive `SELECT` substring (for example an extracted refusal
or clarification message flowing through the pipeline), `process_query`
performs no warehouse execution and returns status FAILED with the
invalid-syntax comment, whatever the syntax-validity check and the
would-be execution outcome are. -/
theorem C10_no_select_no_execution (valid : Bool)
    (runOutcome : String × String) (q : String)
    (hres : contains_restricted_operations q = false)
    (hsel : containsSub q.data "SELECT".data = false) :
    process_query valid runOutcome q = ⟨"FAILED", invalid_sql_message, false⟩ := by
  simp [process_query, hres, hsel]

/-- C10 witness: a clarification message (no SELECT, no restricted
keyword) is routed to the invalid-syntax failure without execution. -/
theorem C10_no_select_no_execution_witness :
    process_query true ("SUCCESS", "ok")
        "Please provide the claim criteria in more detail." =
      ⟨"FAILED", invalid_sql_message, false⟩ :=
  C10_no_select_no_execution true ("SUCCESS", "ok")
    "Please provide the claim criteria in more detail."
    (by set_option maxRecDepth 100000 in decide)
    (by set_option maxRecDepth 100000 in decide)

end T2SQL
